import Mathlib

/-
Verification of the virtual-environment management module (venv.go) of
ansible_puller.

The Go code is shallowly embedded: every interaction with the outside
world (running a subprocess, looking up an environment variable, calling
os.Stat) is represented by an explicit "world" value holding the outcome
the outside world would report, and each Go function becomes a pure Lean
function of its ordinary arguments and that world.  A Go runtime panic is
modelled by returning `none` from an `Option`-valued function.

Conventions shared by all definitions:
  * `github.com/pkg/errors.Wrap err msg` returns nil when `err` is nil;
    wrapping is modelled by mapping the underlying error to an error-class
    constructor, and wrapping nil stays `none`.
  * `failedCommandLogger` and the logrus calls only log; they do not
    affect any returned value and are not modelled.
-/

/-! ## Version detection (getPythonVersion, venv.go lines 33-54) -/

/-- Does the pattern (first list) occur as a prefix of the second list? -/
def startsWithList : List Char → List Char → Bool
  | [], _ => true
  | _ :: _, [] => false
  | p :: ps, c :: cs => p == c && startsWithList ps cs

/-- The literal part of the regular expression `Python (\d).(\d+)(\.\d+)?`. -/
def pythonLit : List Char := "Python ".toList

/-- Match the tail of the regular expression `Python (\d).(\d+)(\.\d+)?`
right after the literal `"Python "`: one digit (capture group 1), one
arbitrary character other than a newline (the unescaped `.`), then a
maximal nonempty run of digits (the greedy capture group 2).  The optional
group `(\.\d+)?` never constrains the match and is not represented since
its capture is unused by the Go code. -/
def matchVersionTail : List Char → Option (Char × List Char)
  | d1 :: c :: rest =>
    if d1.isDigit && c != '\n' then
      let ds := rest.takeWhile Char.isDigit
      if ds.isEmpty then none else some (d1, ds)
    else none
  | _ => none

/-- Leftmost match of `Python (\d).(\d+)(\.\d+)?` in the string, returning
the two capture groups used by the Go code, or `none` when
`regexp.FindStringSubmatch` would return nil. -/
def findVersionMatch : List Char → Option (Char × List Char)
  | [] => none
  | s@(_ :: t) =>
    match (if startsWithList pythonLit s then matchVersionTail (s.drop 7) else none) with
    | some r => some r
    | none => findVersionMatch t

/-- The Go `strconv.Atoi` applied to a capture group: the group consists of
decimal digits, so parsing fails only when the value overflows a 64-bit
int (`strconv.ErrRange`). -/
def atoiDigits (ds : List Char) : Option Int :=
  let v : Nat := ds.foldl (fun a c => a * 10 + (c.toNat - 48)) 0
  if v ≤ 9223372036854775807 then some (Int.ofNat v) else none

/-- Error classes of getPythonVersion, one per `errors.Wrap` message. -/
inductive VersionError
  /-- "Unable to determine Python version." -/
  | detect
  /-- "Unable to parse Python Major version." -/
  | parseMajor
  /-- "Unable to parse Python Minor version." -/
  | parseMinor
deriving DecidableEq

/-- getPythonVersion (venv.go lines 33-54).  `output` is the outcome of
`exec.Command(interpreter, "--version").Output()`: `.error` when the
interpreter could not be invoked, `.ok s` when it printed `s`.  Returns
the Go triple `(majorVersion, minorVersion, err)`; the overall `none`
models the runtime panic (index out of range) raised when
`FindStringSubmatch` returns nil and `matches[1]` is read. -/
def getPythonVersion (output : Except Unit String) :
    Option (Int × Int × Option VersionError) :=
  match output with
  | .error _ => some (-1, -1, some .detect)
  | .ok out =>
    match findVersionMatch out.toList with
    | none => none
    | some (d1, ds) =>
      match atoiDigits [d1] with
      | none => some (-1, -1, some .parseMajor)
      | some majorVersion =>
        match atoiDigits ds with
        | none => some (-1, 1, some .parseMinor)
        | some minorVersion => some (majorVersion, minorVersion, none)

example : getPythonVersion (.ok "Python 3.7.2") = some (3, 7, none) := by decide
example : getPythonVersion (.ok "Python 2.6") = some (2, 6, none) := by decide
example : getPythonVersion (.error ()) = some (-1, -1, some .detect) := by decide
example : getPythonVersion (.ok "bad") = none := by decide

/-! ## Environment creation (makeVenv, Ensure; venv.go lines 27-116) -/

/-- VenvConfig (venv.go lines 28-31). -/
structure VenvConfig where
  Path : String
  Python : String
deriving DecidableEq

/-- Which creation strategy makeVenv runs. -/
inductive Strategy
  /-- makeVenvViaModule: `python -m venv <path>` (venv.go lines 77-86). -/
  | module
  /-- makeVenvLegacy: external `virtualenv` executable (venv.go lines 88-103). -/
  | legacy
deriving DecidableEq

/-- The strategy-selection condition of makeVenv (venv.go line 65):
`if majorV >= 3 && minorV >= 3` picks the module strategy, everything else
falls through to the legacy strategy. -/
def venvStrategy (majorV minorV : Int) : Strategy :=
  if 3 ≤ majorV ∧ 3 ≤ minorV then .module else .legacy

/-- Error classes of the creation strategies. -/
inductive CreateErr
  /-- makeVenvViaModule: `cmd.Run()` returned an error (venv.go line 80). -/
  | moduleRunFailed
  /-- makeVenvLegacy: "virtualenv not found in path" (venv.go line 92). -/
  | virtualenvNotFound
  /-- makeVenvLegacy: `cmd.Run()` returned an error (venv.go line 96). -/
  | legacyRunFailed
deriving DecidableEq

/-- Error classes of makeVenv, one per `errors.Wrap` site. -/
inductive MakeVenvErr
  /-- "Unable to determine python version for specified interpreter." -/
  | versionDetect (e : VersionError)
  /-- "unable to create virtual environment" -/
  | creation (e : CreateErr)
deriving DecidableEq

/-- Outcomes the outside world reports to makeVenv: the output of the
`--version` subprocess, whether the two possible creation subprocesses
succeed, and the result of `exec.LookPath("virtualenv")`. -/
structure MakeVenvWorld where
  versionOutput : Except Unit String
  moduleRunOk : Bool
  virtualenvPath : Option String
  legacyRunOk : Bool

/-- makeVenvViaModule (venv.go lines 77-86): runs
`cfg.Python -m venv cfg.Path`; error iff that subprocess fails. -/
def makeVenvViaModule (w : MakeVenvWorld) : Option CreateErr :=
  if w.moduleRunOk then none else some .moduleRunFailed

/-- makeVenvLegacy (venv.go lines 88-103): looks up `virtualenv` on the
search path, then runs `virtualenv --python cfg.Python cfg.Path`. -/
def makeVenvLegacy (w : MakeVenvWorld) : Option CreateErr :=
  match w.virtualenvPath with
  | none => some .virtualenvNotFound
  | some _ => if w.legacyRunOk then none else some .legacyRunFailed

/-- Dispatch to the selected creation strategy (the branches of the
`if`/`else` at venv.go lines 65-69). -/
def runStrategy (w : MakeVenvWorld) : Strategy → Option CreateErr
  | .module => makeVenvViaModule w
  | .legacy => makeVenvLegacy w

/-- makeVenv (venv.go lines 57-75).  Returns the error (Go `error` return)
together with the strategy that was invoked (`none` when version detection
failed before any strategy ran).  The overall `none` propagates the
getPythonVersion panic. -/
def makeVenv (w : MakeVenvWorld) : Option (Option MakeVenvErr × Option Strategy) :=
  match getPythonVersion w.versionOutput with
  | none => none
  | some (_, _, some e) => some (some (.versionDetect e), none)
  | some (majorV, minorV, none) =>
    let strat := venvStrategy majorV minorV
    match runStrategy w strat with
    | some e => some (some (.creation e), some strat)
    | none => some (none, some strat)

/-- Outcomes the outside world reports to Ensure: whether
`os.IsNotExist(err)` holds for the `os.Stat(c.Path)` error (false both
when the path exists and when Stat fails some other way), plus the world
makeVenv would see. -/
structure EnsureWorld where
  statIsNotExist : Bool
  mkw : MakeVenvWorld

/-- VenvConfig.Ensure (venv.go lines 106-116): creates the environment via
makeVenv only when the root path does not exist; otherwise returns nil
without running anything.  Result as in `makeVenv`. -/
def VenvConfig.Ensure (_c : VenvConfig) (w : EnsureWorld) :
    Option (Option MakeVenvErr × Option Strategy) :=
  if w.statIsNotExist then makeVenv w.mkw else some (none, none)

example : venvStrategy 3 7 = .module := by decide
example : venvStrategy 2 7 = .legacy := by decide
example : venvStrategy 3 2 = .legacy := by decide

/-! ## Command execution (VenvCommand.Run, venv.go lines 133-246) -/

/-- VenvCommand (venv.go lines 134-141). -/
structure VenvCommand where
  Config : VenvConfig
  Binary : String
  Args : List String
  Cwd : String
  Env : List String
  StreamOutput : Bool
deriving DecidableEq

/-- VenvCommandRunOutput (venv.go lines 143-148).  Errors are recorded by
their classification (the `errors.Wrap` message attached by Run). -/
inductive RunErrClass
  /-- "Unable to lookup the $PATH env variable" (venv.go line 166). -/
  | envLookup
  /-- "unable to start command" (venv.go line 194). -/
  | startFailed
  /-- "Execution timed out" (venv.go line 232). -/
  | timedOut
  /-- "unable to complete command" (venv.go lines 211 and 239). -/
  | completeFailed
deriving DecidableEq

structure VenvCommandRunOutput where
  Stdout : String
  Stderr : String
  Error : Option RunErrClass
  Exitcode : Int
deriving DecidableEq

/-- An error returned by `cmd.Wait()` / `cmd.Run()` on the process layer.
Per the process API contract, a failed wait yields either an
`*exec.ExitError` carrying the exit status (`.exit code`; `ExitCode()` is
-1 for a signal-terminated process) or some other error value — pipe I/O
failures, start failures surfaced through `cmd.Run()`, or the context's
own error when the deadline cancels the command (`.other`). -/
inductive WaitErr
  | exit (code : Int)
  | other (msg : String)
deriving DecidableEq

/-- Outcomes the outside world reports to one invocation of Run:
the `os.LookupEnv("PATH")` result, whether `cmd.Start()` fails in
streaming mode, the `cmd.Wait()` error in streaming mode, the
`cmd.Run()` error in buffered mode, whether `ctx.Err()` is
`context.DeadlineExceeded` when Run checks it, and the bytes the buffered
mode accumulated in its stdout/stderr buffers before the process ended. -/
structure ProcWorld where
  pathVar : Option String
  startErr : Option String
  waitErr : Option WaitErr
  runErr : Option WaitErr
  deadlineExceeded : Bool
  bufStdout : String
  bufStderr : String
deriving DecidableEq

/-- VenvCommand.Run (venv.go lines 153-246).  The overall `none` models
the runtime panic in the streaming branch: `exitError, _ := err.(*exec.ExitError)`
leaves `exitError` nil when the wait error is not an `*exec.ExitError`,
and `exitError.ExitCode()` then dereferences nil.

Not modelled because they do not influence the returned value: the
`$PATH` prepend (venv.go lines 170-176, a process-global side effect),
`cmd.Dir`/`cmd.Env` assembly, the two line-forwarding goroutines of
streaming mode (they print to the parent's stdout only), and the ignored
`StdoutPipe`/`StderrPipe` errors.

Faithful to `github.com/pkg/errors`, `errors.Wrap(err, msg)` is nil when
`err` is nil: in the deadline branch (venv.go line 232) the recorded
error exists only when `cmd.Run()` itself returned one. -/
def VenvCommand.Run (c : VenvCommand) (w : ProcWorld) : Option VenvCommandRunOutput :=
  let init : VenvCommandRunOutput :=
    { Stdout := "", Stderr := "", Error := none, Exitcode := -1 }
  match w.pathVar with
  | none => some { init with Error := some .envLookup }
  | some _ =>
    if c.StreamOutput then
      match w.startErr with
      | some _ => some { init with Error := some .startFailed }
      | none =>
        match w.waitErr with
        | some (.exit code) =>
          some { init with Error := some .completeFailed, Exitcode := code }
        | some (.other _) => none
        | none => some { init with Exitcode := 0 }
    else
      let afterRun := { init with Stdout := w.bufStdout, Stderr := w.bufStderr }
      if w.deadlineExceeded then
        some { afterRun with Error := w.runErr.map (fun _ => RunErrClass.timedOut) }
      else
        match w.runErr with
        | some (.exit code) =>
          some { afterRun with Error := some .completeFailed, Exitcode := code }
        | some (.other _) => some { afterRun with Error := some .completeFailed }
        | none => some { afterRun with Exitcode := 0 }

/-! ## Update (venv.go lines 119-131) -/

/-- The VenvCommand literal that Update constructs (venv.go lines 120-124);
Cwd, Env and StreamOutput keep their zero values. -/
def updateCommand (c : VenvConfig) (requirementsFile : String) : VenvCommand :=
  { Config := c
    Binary := "pip"
    Args := ["install", "-r", requirementsFile]
    Cwd := ""
    Env := []
    StreamOutput := false }

/-- The single error class of Update: "unable to update virtualenv". -/
inductive UpdateErr
  | unableToUpdate
deriving DecidableEq

/-- VenvConfig.Update (venv.go lines 119-131): runs the pip command built
by `updateCommand` and wraps a non-nil runner error.  The outer `none`
would propagate a Run panic (unreachable for a buffered command). -/
def VenvConfig.Update (c : VenvConfig) (requirementsFile : String) (w : ProcWorld) :
    Option (Option UpdateErr) :=
  match VenvCommand.Run (updateCommand c requirementsFile) w with
  | none => none
  | some out =>
    match out.Error with
    | some _ => some (some .unableToUpdate)
    | none => some none

/-! ## Shared concrete samples and helper lemmas -/

/-- A streaming-mode command used by concrete instances below. -/
def sampleStreamCmd : VenvCommand :=
  { Config := { Path := "/opt/venv", Python := "/usr/bin/python3" },
    Binary := "ansible-playbook", Args := ["site.yml"], Cwd := "",
    Env := [], StreamOutput := true }

/-- A buffered-mode command used by concrete instances below. -/
def sampleBufCmd : VenvCommand :=
  { Config := { Path := "/opt/venv", Python := "/usr/bin/python3" },
    Binary := "pip", Args := ["install", "-r", "requirements.txt"], Cwd := "",
    Env := [], StreamOutput := false }

/-- In buffered mode Run never reaches the streaming branch, hence never
the modelled panic: it always returns a result value. -/
theorem run_isSome_of_not_stream (c : VenvCommand) (w : ProcWorld)
    (h : c.StreamOutput = false) : (VenvCommand.Run c w).isSome := by
  unfold VenvCommand.Run
  cases hp : w.pathVar with
  | none => simp
  | some p =>
    simp only [h, if_false, Bool.false_eq_true]
    cases hd : w.deadlineExceeded with
    | true => simp
    | false =>
      cases hr : w.runErr with
      | none => simp
      | some e => cases e <;> simp

/-! ## Claim theorems -/

/-- C1: the claim states that version output not matching the pattern
makes getPythonVersion return a VersionParseError instead of crashing.
The code instead panics: `FindStringSubmatch` returns nil for such output
and `matches[1]` is an index-out-of-range access.  Evaluating the model
at a concrete non-matching output shows the panic (`none`), where the
claim demands `some` of a parse error. -/
theorem getPythonVersion_panics_on_malformed_output :
    getPythonVersion (.ok "this interpreter prints no version") = none := by
  decide

/-- C2 counterexample: a streaming-mode invocation whose deadline fired
before the process completed (the kill surfaces as an exit-status wait
error with code -1) is classified "unable to complete command"
(ExecutionFailedError), not TimeoutError — the streaming branch never
consults the context error. -/
theorem run_streaming_deadline_misclassified_cex :
    VenvCommand.Run sampleStreamCmd
      { pathVar := some "/usr/local/bin:/usr/bin", startErr := none,
        waitErr := some (.exit (-1)), runErr := none,
        deadlineExceeded := true, bufStdout := "", bufStderr := "" } =
    some { Stdout := "", Stderr := "", Error := some .completeFailed,
           Exitcode := -1 } := by
  decide

/-- C2 amended: timeout precedence holds only in buffered mode.  When the
deadline fired and the process layer reported a failure, buffered mode
classifies the result as TimeoutError, while streaming mode classifies
the wait failure as ExecutionFailedError (the deadline is never
consulted there). -/
theorem run_timeout_classification_by_mode (c : VenvCommand) (w : ProcWorld)
    (p : String) (hp : w.pathVar = some p) (hd : w.deadlineExceeded = true) :
    (c.StreamOutput = false → ∀ e, w.runErr = some e →
      VenvCommand.Run c w =
        some { Stdout := w.bufStdout, Stderr := w.bufStderr,
               Error := some .timedOut, Exitcode := -1 }) ∧
    (c.StreamOutput = true → w.startErr = none →
      ∀ code, w.waitErr = some (.exit code) →
      VenvCommand.Run c w =
        some { Stdout := "", Stderr := "", Error := some .completeFailed,
               Exitcode := code }) := by
  constructor
  · intro hs e he
    simp [VenvCommand.Run, hp, hs, hd, he]
  · intro hs hst code hwe
    simp [VenvCommand.Run, hp, hs, hst, hwe]

/-- C2 amended, witness: both parts applied at concrete inputs. -/
theorem run_timeout_classification_by_mode_witness :
    VenvCommand.Run sampleBufCmd
      { pathVar := some "/usr/bin", startErr := none, waitErr := none,
        runErr := some (.other "signal: killed"),
        deadlineExceeded := true, bufStdout := "partial", bufStderr := "" } =
      some { Stdout := "partial", Stderr := "", Error := some .timedOut,
             Exitcode := -1 } ∧
    VenvCommand.Run sampleStreamCmd
      { pathVar := some "/usr/bin", startErr := none,
        waitErr := some (.exit (-1)), runErr := none,
        deadlineExceeded := true, bufStdout := "", bufStderr := "" } =
      some { Stdout := "", Stderr := "", Error := some .completeFailed,
             Exitcode := -1 } :=
  ⟨(run_timeout_classification_by_mode sampleBufCmd
      { pathVar := some "/usr/bin", startErr := none, waitErr := none,
        runErr := some (.other "signal: killed"),
        deadlineExceeded := true, bufStdout := "partial", bufStderr := "" }
      "/usr/bin" rfl rfl).1 rfl (.other "signal: killed") rfl,
   (run_timeout_classification_by_mode sampleStreamCmd
      { pathVar := some "/usr/bin", startErr := none,
        waitErr := some (.exit (-1)), runErr := none,
        deadlineExceeded := true, bufStdout := "", bufStderr := "" }
      "/usr/bin" rfl rfl).2 rfl rfl (-1) rfl⟩

/-- C3: in buffered mode, a command killed by the deadline (the context
reports DeadlineExceeded and the process layer reports some error — any
error) yields TimeoutError, never ExecutionFailedError. -/
theorem run_buffered_deadline_yields_timeout (c : VenvCommand) (w : ProcWorld)
    (p : String) (e : WaitErr) (hs : c.StreamOutput = false)
    (hp : w.pathVar = some p) (hd : w.deadlineExceeded = true)
    (he : w.runErr = some e) :
    VenvCommand.Run c w =
      some { Stdout := w.bufStdout, Stderr := w.bufStderr,
             Error := some .timedOut, Exitcode := -1 } := by
  simp [VenvCommand.Run, hp, hs, hd, he]

/-- C3 witness: a concrete buffered timeout, with a non-zero-exit
process-layer error, still classified TimeoutError. -/
theorem run_buffered_deadline_yields_timeout_witness :
    VenvCommand.Run sampleBufCmd
      { pathVar := some "/bin", startErr := none, waitErr := none,
        runErr := some (.exit 137),
        deadlineExceeded := true, bufStdout := "out so far",
        bufStderr := "err so far" } =
      some { Stdout := "out so far", Stderr := "err so far",
             Error := some .timedOut, Exitcode := -1 } :=
  run_buffered_deadline_yields_timeout sampleBufCmd
    { pathVar := some "/bin", startErr := none, waitErr := none,
      runErr := some (.exit 137),
      deadlineExceeded := true, bufStdout := "out so far",
      bufStderr := "err so far" }
    "/bin" (.exit 137) rfl rfl rfl rfl

/-- C4 counterexample: in buffered mode a binary that cannot be started
(the start failure surfaces through `cmd.Run()` as a non-exit-status
error) is classified "unable to complete command" (the generic
ExecutionFailedError), not StartError; only the exitCode == -1 half of
the claim holds. -/
theorem run_buffered_missing_binary_not_starterror_cex :
    VenvCommand.Run sampleBufCmd
      { pathVar := some "/usr/bin", startErr := none, waitErr := none,
        runErr := some (.other "fork-exec /opt/venv/bin/pip: no such file or directory"),
        deadlineExceeded := false, bufStdout := "", bufStderr := "" } =
    some { Stdout := "", Stderr := "", Error := some .completeFailed,
           Exitcode := -1 } := by
  decide

/-- C4 amended: a binary missing under `<rootPath>/bin` leaves
exitCode = -1 in both modes, but only the streaming branch classifies it
as StartError ("unable to start command"); in buffered mode the start
failure surfaces through the combined run call and is classified as the
generic ExecutionFailedError ("unable to complete command"). -/
theorem run_start_failure_classification (c : VenvCommand) (w : ProcWorld)
    (p : String) (hp : w.pathVar = some p) :
    (c.StreamOutput = true → ∀ m, w.startErr = some m →
      VenvCommand.Run c w =
        some { Stdout := "", Stderr := "", Error := some .startFailed,
               Exitcode := -1 }) ∧
    (c.StreamOutput = false → w.deadlineExceeded = false →
      ∀ m, w.runErr = some (.other m) →
      VenvCommand.Run c w =
        some { Stdout := w.bufStdout, Stderr := w.bufStderr,
               Error := some .completeFailed, Exitcode := -1 }) := by
  constructor
  · intro hs m hst
    simp [VenvCommand.Run, hp, hs, hst]
  · intro hs hd m hr
    simp [VenvCommand.Run, hp, hs, hd, hr]

/-- C4 amended, witness: both parts applied at concrete inputs. -/
theorem run_start_failure_classification_witness :
    VenvCommand.Run sampleStreamCmd
      { pathVar := some "/sbin", startErr := some "exec: file does not exist",
        waitErr := none, runErr := none,
        deadlineExceeded := false, bufStdout := "", bufStderr := "" } =
      some { Stdout := "", Stderr := "", Error := some .startFailed,
             Exitcode := -1 } ∧
    VenvCommand.Run sampleBufCmd
      { pathVar := some "/sbin", startErr := none, waitErr := none,
        runErr := some (.other "exec: file does not exist"),
        deadlineExceeded := false, bufStdout := "", bufStderr := "" } =
      some { Stdout := "", Stderr := "", Error := some .completeFailed,
             Exitcode := -1 } :=
  ⟨(run_start_failure_classification sampleStreamCmd
      { pathVar := some "/sbin", startErr := some "exec: file does not exist",
        waitErr := none, runErr := none,
        deadlineExceeded := false, bufStdout := "", bufStderr := "" }
      "/sbin" rfl).1 rfl "exec: file does not exist" rfl,
   (run_start_failure_classification sampleBufCmd
      { pathVar := some "/sbin", startErr := none, waitErr := none,
        runErr := some (.other "exec: file does not exist"),
        deadlineExceeded := false, bufStdout := "", bufStderr := "" }
      "/sbin" rfl).2 rfl rfl "exec: file does not exist" rfl⟩

/-- C5: Ensure is a no-op whenever the root path already exists (or more
generally whenever `os.IsNotExist` does not hold for the Stat error): it
invokes no creation strategy and returns no error, so repeated calls on
an existing path never re-create or modify the environment. -/
theorem ensure_noop_when_path_exists (c : VenvConfig) (w : EnsureWorld)
    (h : w.statIsNotExist = false) :
    VenvConfig.Ensure c w = some (none, none) := by
  simp [VenvConfig.Ensure, h]

/-- C5 witness: Ensure applied when the path exists, with a world whose
creation strategies would both fail — proving neither was consulted. -/
theorem ensure_noop_when_path_exists_witness :
    VenvConfig.Ensure { Path := "/opt/venv", Python := "/usr/bin/python3" }
      { statIsNotExist := false,
        mkw := { versionOutput := .ok "Python 3.8.10", moduleRunOk := false,
                 virtualenvPath := none, legacyRunOk := false } } =
    some (none, none) :=
  ensure_noop_when_path_exists
    { Path := "/opt/venv", Python := "/usr/bin/python3" }
    { statIsNotExist := false,
      mkw := { versionOutput := .ok "Python 3.8.10", moduleRunOk := false,
               virtualenvPath := none, legacyRunOk := false } }
    rfl

/-- C6: whenever version detection succeeds with (majorV, minorV),
makeVenv invokes exactly the strategy chosen by `venvStrategy`, and that
choice is the module strategy precisely when majorV ≥ 3 and minorV ≥ 3;
in particular major 3 with minor 3..9 selects the module strategy and
major 2 with any minor selects the legacy strategy. -/
theorem makeVenv_strategy_selection (w : MakeVenvWorld) (majorV minorV : Int)
    (hv : getPythonVersion w.versionOutput = some (majorV, minorV, none)) :
    (∃ res, makeVenv w = some (res, some (venvStrategy majorV minorV))) ∧
    (venvStrategy majorV minorV = .module ↔ 3 ≤ majorV ∧ 3 ≤ minorV) ∧
    (majorV = 3 → 3 ≤ minorV → minorV ≤ 9 →
      venvStrategy majorV minorV = .module) ∧
    (majorV = 2 → venvStrategy majorV minorV = .legacy) := by
  refine ⟨?_, ?_, ?_, ?_⟩
  · cases hres : runStrategy w (venvStrategy majorV minorV) <;>
      simp [makeVenv, hv, hres]
  · unfold venvStrategy
    split_ifs with h <;> simp_all
  · intro h1 h2 h3
    unfold venvStrategy
    rw [if_pos]
    exact ⟨by omega, h2⟩
  · intro h1
    unfold venvStrategy
    rw [if_neg]
    omega

/-- C6 witness: concrete selections — Python 3.7 takes the module
strategy inside makeVenv, Python 2.7 the legacy strategy. -/
theorem makeVenv_strategy_selection_witness :
    (∃ res, makeVenv { versionOutput := .ok "Python 3.7.2", moduleRunOk := true,
                       virtualenvPath := none, legacyRunOk := true } =
      some (res, some .module)) ∧
    (∃ res, makeVenv { versionOutput := .ok "Python 2.7", moduleRunOk := true,
                       virtualenvPath := some "/usr/bin/virtualenv",
                       legacyRunOk := true } =
      some (res, some .legacy)) := by
  constructor
  · have h := (makeVenv_strategy_selection
      { versionOutput := .ok "Python 3.7.2", moduleRunOk := true,
        virtualenvPath := none, legacyRunOk := true } 3 7 (by decide))
    have hm : venvStrategy 3 7 = .module := h.2.2.1 rfl (by decide) (by decide)
    exact hm ▸ h.1
  · have h := (makeVenv_strategy_selection
      { versionOutput := .ok "Python 2.7", moduleRunOk := true,
        virtualenvPath := some "/usr/bin/virtualenv", legacyRunOk := true }
      2 7 (by decide))
    have hm : venvStrategy 2 7 = .legacy := h.2.2.2 rfl
    exact hm ▸ h.1

/-- C7: Update constructs exactly the buffered pip command
`pip install -r <requirementsFile>` (zero-valued Cwd, Env and
StreamOutput), and returns the UpdateError wrapping iff the runner
reported a non-nil error. -/
theorem update_forwards_pip_install (c : VenvConfig) (requirementsFile : String)
    (w : ProcWorld) :
    updateCommand c requirementsFile =
      { Config := c, Binary := "pip",
        Args := ["install", "-r", requirementsFile],
        Cwd := "", Env := [], StreamOutput := false } ∧
    ∃ out, VenvCommand.Run (updateCommand c requirementsFile) w = some out ∧
      VenvConfig.Update c requirementsFile w =
        some (if out.Error.isSome then some .unableToUpdate else none) := by
  refine ⟨rfl, ?_⟩
  have hsome := run_isSome_of_not_stream (updateCommand c requirementsFile) w rfl
  cases hrun : VenvCommand.Run (updateCommand c requirementsFile) w with
  | none => rw [hrun] at hsome; simp at hsome
  | some out =>
    refine ⟨out, rfl, ?_⟩
    unfold VenvConfig.Update
    rw [hrun]
    cases he : out.Error <;> simp [he]

/-- Shape of every streaming-mode outcome: either the modelled panic, or
a result whose captured output fields are both empty. -/
theorem run_stream_shape (c : VenvCommand) (w : ProcWorld)
    (hs : c.StreamOutput = true) :
    VenvCommand.Run c w = none ∨
    ∃ err code, VenvCommand.Run c w =
      some { Stdout := "", Stderr := "", Error := err, Exitcode := code } := by
  unfold VenvCommand.Run
  cases hp : w.pathVar with
  | none => right; exact ⟨some .envLookup, -1, rfl⟩
  | some p =>
    simp only [hs, if_true]
    cases hst : w.startErr with
    | some m => right; exact ⟨some .startFailed, -1, rfl⟩
    | none =>
      cases hwe : w.waitErr with
      | none => right; exact ⟨none, 0, rfl⟩
      | some e =>
        cases e with
        | exit code => right; exact ⟨some .completeFailed, code, rfl⟩
        | other m => left; rfl

/-- C8: in streaming mode the result's Stdout and Stderr fields are empty
strings no matter what the child process wrote or how the invocation
ended; output capture happens only in buffered mode. -/
theorem run_streaming_output_empty (c : VenvCommand) (w : ProcWorld)
    (r : VenvCommandRunOutput) (hs : c.StreamOutput = true)
    (hr : VenvCommand.Run c w = some r) :
    r.Stdout = "" ∧ r.Stderr = "" := by
  rcases run_stream_shape c w hs with hn | ⟨err, code, hsome⟩
  · rw [hn] at hr
    exact absurd hr (by simp)
  · rw [hsome] at hr
    obtain rfl := Option.some.inj hr
    exact ⟨rfl, rfl⟩

/-- C8 witness: a concrete streaming run that exits 2; both captured
fields of its result are empty even though the buffers held text. -/
theorem run_streaming_output_empty_witness :
    (⟨"", "", some .completeFailed, 2⟩ : VenvCommandRunOutput).Stdout = "" ∧
    (⟨"", "", some .completeFailed, 2⟩ : VenvCommandRunOutput).Stderr = "" :=
  run_streaming_output_empty sampleStreamCmd
    { pathVar := some "/bin", startErr := none, waitErr := some (.exit 2),
      runErr := none, deadlineExceeded := false, bufStdout := "ignored",
      bufStderr := "ignored" }
    ⟨"", "", some .completeFailed, 2⟩ rfl rfl

/-- C9: in buffered mode, whenever the run fails after the process ran
(deadline kill, non-zero exit, or any other wait failure — i.e. the
process layer reported some error), the result still carries everything
the stdout/stderr buffers accumulated, alongside a populated error. -/
theorem run_buffered_failure_preserves_output (c : VenvCommand) (w : ProcWorld)
    (p : String) (e : WaitErr) (hs : c.StreamOutput = false)
    (hp : w.pathVar = some p) (he : w.runErr = some e) :
    ∃ r, VenvCommand.Run c w = some r ∧ r.Stdout = w.bufStdout ∧
      r.Stderr = w.bufStderr ∧ r.Error.isSome := by
  cases hd : w.deadlineExceeded with
  | true =>
    refine ⟨{ Stdout := w.bufStdout, Stderr := w.bufStderr,
              Error := some .timedOut, Exitcode := -1 }, ?_, rfl, rfl, rfl⟩
    simp [VenvCommand.Run, hp, hs, hd, he]
  | false =>
    cases e with
    | exit code =>
      refine ⟨{ Stdout := w.bufStdout, Stderr := w.bufStderr,
                Error := some .completeFailed, Exitcode := code }, ?_, rfl, rfl, rfl⟩
      simp [VenvCommand.Run, hp, hs, hd, he]
    | other m =>
      refine ⟨{ Stdout := w.bufStdout, Stderr := w.bufStderr,
                Error := some .completeFailed, Exitcode := -1 }, ?_, rfl, rfl, rfl⟩
      simp [VenvCommand.Run, hp, hs, hd, he]

/-- C9 witness: a concrete buffered run that exited 1; the accumulated
output and error text survive into the result next to the error. -/
theorem run_buffered_failure_preserves_output_witness :
    ∃ r, VenvCommand.Run sampleBufCmd
      { pathVar := some "/bin", startErr := none, waitErr := none,
        runErr := some (.exit 1), deadlineExceeded := false,
        bufStdout := "collected output", bufStderr := "collected errors" } =
      some r ∧
      r.Stdout = ProcWorld.bufStdout
        { pathVar := some "/bin", startErr := none, waitErr := none,
          runErr := some (.exit 1), deadlineExceeded := false,
          bufStdout := "collected output", bufStderr := "collected errors" } ∧
      r.Stderr = ProcWorld.bufStderr
        { pathVar := some "/bin", startErr := none, waitErr := none,
          runErr := some (.exit 1), deadlineExceeded := false,
          bufStdout := "collected output", bufStderr := "collected errors" } ∧
      r.Error.isSome :=
  run_buffered_failure_preserves_output sampleBufCmd
    { pathVar := some "/bin", startErr := none, waitErr := none,
      runErr := some (.exit 1), deadlineExceeded := false,
      bufStdout := "collected output", bufStderr := "collected errors" }
    "/bin" (.exit 1) rfl rfl rfl

/-- C10 counterexample: a streaming run whose wait error is not an
exit-status error (a pipe I/O failure here).  The unchecked downcast
yields nil and the exit-code extraction dereferences it: Run panics
(modelled `none`) instead of returning a result. -/
theorem run_streaming_nonexit_wait_panics_cex :
    VenvCommand.Run sampleStreamCmd
      { pathVar := some "/usr/bin", startErr := none,
        waitErr := some (.other "read from stdout pipe failed"),
        runErr := none, deadlineExceeded := false, bufStdout := "",
        bufStderr := "" } = none := by
  decide

/-- C10 amended: in streaming mode Run is panic-free exactly on the wait
errors that are exit-status errors; any other wait error (the process
API also produces I/O and context-cancellation errors) makes the
unchecked downcast yield nil and the exit-code extraction panic. -/
theorem run_streaming_wait_panic_iff (c : VenvCommand) (w : ProcWorld)
    (p : String) (hs : c.StreamOutput = true) (hp : w.pathVar = some p)
    (hst : w.startErr = none) :
    VenvCommand.Run c w = none ↔ ∃ m, w.waitErr = some (.other m) := by
  cases hwe : w.waitErr with
  | none => simp [VenvCommand.Run, hp, hs, hst, hwe]
  | some e =>
    cases e with
    | exit code => simp [VenvCommand.Run, hp, hs, hst, hwe]
    | other m => simp [VenvCommand.Run, hp, hs, hst, hwe]

/-- C10 amended, witness: a concrete streaming run whose wait error is
the context's own cancellation error panics. -/
theorem run_streaming_wait_panic_iff_witness :
    VenvCommand.Run sampleStreamCmd
      { pathVar := some "/usr/local/bin", startErr := none,
        waitErr := some (.other "context deadline exceeded"),
        runErr := none, deadlineExceeded := true, bufStdout := "",
        bufStderr := "" } = none :=
  (run_streaming_wait_panic_iff sampleStreamCmd
    { pathVar := some "/usr/local/bin", startErr := none,
      waitErr := some (.other "context deadline exceeded"),
      runErr := none, deadlineExceeded := true, bufStdout := "",
      bufStderr := "" }
    "/usr/local/bin" rfl rfl rfl).mpr ⟨"context deadline exceeded", rfl⟩
